import Mathlib

/-!
Verification of the GSSAPI/Kerberos native session layer (`src/native/src/lib.rs`).

The Rust code is a thin stateful layer over the native krb5/GSSAPI libraries.
We embed it shallowly: native library calls are recorded as events in a trace,
and their return codes / produced data are supplied by explicit outcome records
(the native libraries are external to this repository). Process-wide state
(environment variables, the filesystem, the global lock) is passed explicitly.
-/

namespace KafkaGSSAPI

/-- Error code `KRB5_KDC_UNREACH` from the generated krb5 bindings. -/
def KRB5_KDC_UNREACH : Int := -1765328228

/-- Error code `KRB5_REALM_CANT_RESOLVE` from the generated krb5 bindings. -/
def KRB5_REALM_CANT_RESOLVE : Int := -1765328164

/-- A napi `Error` built with `Error::from_reason`. -/
structure NapiError where
  reason : String
deriving DecidableEq, Repr

/-- One call into the native krb5/GSSAPI libraries.  `gss_wrap` records the
context handle and the `conf_req_flag` argument the Rust code passes;
`gss_unwrap` records the context handle. -/
inductive NativeCall where
  | krb5_parse_name
  | krb5_free_principal
  | krb5_kt_resolve
  | krb5_kt_close
  | krb5_get_init_creds_password
  | krb5_get_init_creds_keytab
  | krb5_free_cred_contents
  | krb5_cc_init
  | krb5_cc_store_cred
  | krb5_get_error_message
  | krb5_free_error_message
  | gss_import_name
  | gss_release_name
  | gss_init_sec_context
  | gss_release_buffer
  | gss_display_status
  | gss_wrap (context : Option Nat) (conf_req_flag : Int)
  | gss_unwrap (context : Option Nat)
deriving DecidableEq, Repr

/-- The `GSSAPI` napi class state.  Raw native handles are opaque; we model a
handle as `Option Nat` where `none` is the null pointer. -/
structure GSSAPIState where
  config_path : String
  cache_path : String
  context : Option Nat
  cache : Option Nat
  gss : Option Nat
deriving DecidableEq, Repr

/-! ## Environment scope guard (`EnvManager`)

The ambient state the guard touches is the pair of process environment
variables `KRB5_CONFIG` and `KRB5CCNAME`; an absent variable is `none`. -/

/-- The two ambient configuration variables read by the native library. -/
structure Env where
  krb5_config : Option String
  krb5ccname : Option String
deriving DecidableEq, Repr

/-- The values captured by `EnvManager::new` (fields `prev_krbconfig` and
`prev_krbcache`). -/
structure EnvSaved where
  prev_krbconfig : Option String
  prev_krbcache : Option String
deriving DecidableEq, Repr

/-- `EnvManager::new`: capture the current ambient values, then set both
variables to the given paths (under the global lock). -/
def EnvManager.enter (config_path cache_path : String) (e : Env) : EnvSaved × Env :=
  (⟨e.krb5_config, e.krb5ccname⟩, ⟨some config_path, some cache_path⟩)

/-- `Drop for EnvManager`: re-set each variable to its captured previous value
when one existed, and remove it otherwise.  The resulting ambient state is
exactly the captured pair, whatever the current state is. -/
def EnvManager.restore (m : EnvSaved) (_e : Env) : Env :=
  ⟨m.prev_krbconfig, m.prev_krbcache⟩

/-- One scope bracket: enter, run the guarded operation (an arbitrary
transformation of the ambient state, covering success and failure), exit. -/
def EnvManager.scoped (config_path cache_path : String) (body : Env → Env) (e : Env) : Env :=
  let p := EnvManager.enter config_path cache_path e
  EnvManager.restore p.1 (body p.2)

/-- A sequence of scope brackets, each with its own paths and guarded body. -/
def runScopes : List (String × String × (Env → Env)) → Env → Env
  | [], e => e
  | (cfg, cache, body) :: rest, e => runScopes rest (EnvManager.scoped cfg cache body e)

/-- Claim C4: for every pair of prior ambient values and every sequence of
scope enter/exit brackets — whatever the guarded operations do, including
further nested brackets, and whether they succeed or fail — the ambient values
after the last exit are exactly the values before the first entry. -/
theorem env_scopes_round_trip (l : List (String × String × (Env → Env))) (e : Env) :
    runScopes l e = e := by
  induction l generalizing e with
  | nil => rfl
  | cons hd tl ih =>
    obtain ⟨cfg, cache, body⟩ := hd
    rw [runScopes, ih]
    rfl

/-! ## Error translation (`format_kerberos_error`, `format_gss_error`)

The text returned by the native lookup primitives is supplied by the outcome
records; each helper returns the native calls it makes together with the
constructed napi error. -/

/-- `GSSAPI::format_kerberos_error`: look up the message for `code` via
`krb5_get_error_message`, build the error string, free the native message. -/
def format_kerberos_error (msg_of : Int → String) (pfx : String) (code : Int) :
    List NativeCall × NapiError :=
  ([.krb5_get_error_message, .krb5_free_error_message],
   ⟨pfx ++ ": " ++ msg_of code ++ ". (error code " ++ toString code ++ ")"⟩)

/-- Results of the (up to two) `gss_display_status` lookups made by
`GSSAPI::format_gss_error`: the return code and text for the major ("GSS")
code lookup and for the minor ("mechanism") code lookup. -/
structure GssDisplay where
  major_ret : Nat
  major_text : String
  minor_ret : Nat
  minor_text : String
deriving Repr

/-- `GSSAPI::format_gss_error`: look up the major status text; if that lookup
itself fails, report an unknown error.  Otherwise release the native buffer
and, when the minor code is non-zero, look up and append the minor status
text (releasing its buffer only when that second lookup succeeds). -/
def format_gss_error (d : GssDisplay) (pfx : String) (major minor : Nat) :
    List NativeCall × NapiError :=
  if d.major_ret ≠ 0 then
    ([.gss_display_status],
     ⟨pfx ++ ": unknown error. (error code " ++ toString major ++ ")"⟩)
  else
    let codes := ". (error code " ++ toString major ++ " - " ++ toString minor ++ ")"
    if minor ≠ 0 then
      if d.minor_ret = 0 then
        ([.gss_display_status, .gss_release_buffer, .gss_display_status, .gss_release_buffer],
         ⟨pfx ++ ": " ++ d.major_text ++ d.minor_text ++ codes⟩)
      else
        ([.gss_display_status, .gss_release_buffer, .gss_display_status],
         ⟨pfx ++ ": " ++ d.major_text ++ codes⟩)
    else
      ([.gss_display_status, .gss_release_buffer],
       ⟨pfx ++ ": " ++ d.major_text ++ codes⟩)

/-! ## Credential acquisition

`authenticate_with_password` and `authenticate_with_keytab` take `&self` in
the Rust code; we nevertheless pass the session state through and return it,
so that the frame property is a statement rather than a typing convention.
Each function returns the updated state, the trace of native calls it made
(in order), and its result. -/

/-- Return codes of the native calls `authenticate_with_password` can make,
and the message text `krb5_get_error_message` would produce per code. -/
structure PasswordOutcomes where
  parse_name_ret : Int
  get_init_creds_password_ret : Int
  cc_initialize_ret : Int
  cc_store_cred_ret : Int
  error_message : Int → String

/-- `GSSAPI::authenticate_with_password`, lines 371–427 of `lib.rs`:
parse the principal; acquire initial credentials with the password; map the
two special acquisition failures to fixed messages; initialize the cache for
the principal; store the credentials; free the principal (and, on the store
path, the credential contents) as the code does on each return path. -/
def GSSAPI.authenticate_with_password (s : GSSAPIState) (_username _password : String)
    (o : PasswordOutcomes) : GSSAPIState × List NativeCall × Except NapiError Unit :=
  if o.parse_name_ret ≠ 0 then
    let f := format_kerberos_error o.error_message "krb5_parse_name failed" o.parse_name_ret
    (s, .krb5_parse_name :: f.1, .error f.2)
  else if o.get_init_creds_password_ret ≠ 0 then
    let t : List NativeCall :=
      [.krb5_parse_name, .krb5_get_init_creds_password, .krb5_free_principal]
    if o.get_init_creds_password_ret = KRB5_KDC_UNREACH then
      (s, t, .error ⟨"Unable to reach the KDC."⟩)
    else if o.get_init_creds_password_ret = KRB5_REALM_CANT_RESOLVE then
      (s, t, .error ⟨"Cannot resolve the realm."⟩)
    else
      let f := format_kerberos_error o.error_message "krb5_get_init_creds_password failed"
        o.get_init_creds_password_ret
      (s, t ++ f.1, .error f.2)
  else if o.cc_initialize_ret ≠ 0 then
    let f := format_kerberos_error o.error_message "krb5_cc_initialize failed" o.cc_initialize_ret
    (s, [.krb5_parse_name, .krb5_get_init_creds_password, .krb5_cc_init,
         .krb5_free_principal] ++ f.1, .error f.2)
  else
    let t : List NativeCall :=
      [.krb5_parse_name, .krb5_get_init_creds_password, .krb5_cc_init,
       .krb5_cc_store_cred, .krb5_free_principal, .krb5_free_cred_contents]
    if o.cc_store_cred_ret ≠ 0 then
      let f := format_kerberos_error o.error_message "krb5_cc_store_cred failed" o.cc_store_cred_ret
      (s, t ++ f.1, .error f.2)
    else
      (s, t, .ok ())

/-- Return codes of the native calls `authenticate_with_keytab` can make,
plus whether the keytab path exists on the filesystem. -/
structure KeytabOutcomes where
  keytab_exists : Bool
  parse_name_ret : Int
  kt_resolve_ret : Int
  get_init_creds_keytab_ret : Int
  cc_initialize_ret : Int
  cc_store_cred_ret : Int
  error_message : Int → String

/-- `GSSAPI::authenticate_with_keytab`, lines 430–499 of `lib.rs`: check the
keytab path exists (before any native call); parse the principal; resolve the
keytab; acquire initial credentials, closing the keytab immediately after the
acquisition call regardless of its outcome; then cache-initialize and store
as in the password variant. -/
def GSSAPI.authenticate_with_keytab (s : GSSAPIState) (_username keytab : String)
    (o : KeytabOutcomes) : GSSAPIState × List NativeCall × Except NapiError Unit :=
  if ¬o.keytab_exists then
    (s, [], .error ⟨"Keytab file not found: " ++ keytab⟩)
  else if o.parse_name_ret ≠ 0 then
    let f := format_kerberos_error o.error_message "krb5_parse_name failed" o.parse_name_ret
    (s, .krb5_parse_name :: f.1, .error f.2)
  else if o.kt_resolve_ret ≠ 0 then
    let f := format_kerberos_error o.error_message "krb5_kt_resolve failed" o.kt_resolve_ret
    (s, [.krb5_parse_name, .krb5_kt_resolve, .krb5_free_principal] ++ f.1, .error f.2)
  else if o.get_init_creds_keytab_ret ≠ 0 then
    let t : List NativeCall :=
      [.krb5_parse_name, .krb5_kt_resolve, .krb5_get_init_creds_keytab, .krb5_kt_close,
       .krb5_free_principal]
    if o.get_init_creds_keytab_ret = KRB5_KDC_UNREACH then
      (s, t, .error ⟨"Unable to reach the KDC."⟩)
    else if o.get_init_creds_keytab_ret = KRB5_REALM_CANT_RESOLVE then
      (s, t, .error ⟨"Cannot resolve the realm."⟩)
    else
      let f := format_kerberos_error o.error_message "krb5_get_init_creds_keytab failed"
        o.get_init_creds_keytab_ret
      (s, t ++ f.1, .error f.2)
  else if o.cc_initialize_ret ≠ 0 then
    let f := format_kerberos_error o.error_message "krb5_cc_initialize failed" o.cc_initialize_ret
    (s, [.krb5_parse_name, .krb5_kt_resolve, .krb5_get_init_creds_keytab, .krb5_kt_close,
         .krb5_cc_init, .krb5_free_principal] ++ f.1, .error f.2)
  else
    let t : List NativeCall :=
      [.krb5_parse_name, .krb5_kt_resolve, .krb5_get_init_creds_keytab, .krb5_kt_close,
       .krb5_cc_init, .krb5_cc_store_cred, .krb5_free_principal, .krb5_free_cred_contents]
    if o.cc_store_cred_ret ≠ 0 then
      let f := format_kerberos_error o.error_message "krb5_cc_store_cred failed" o.cc_store_cred_ret
      (s, t ++ f.1, .error f.2)
    else
      (s, t, .ok ())

/-! ## Security context negotiation (`step`) -/

/-- A `StepResult` as returned to the host: the output token bytes and the
completion flag. -/
structure StepResult where
  output : List Nat
  completed : Bool
deriving DecidableEq, Repr

/-- Outcomes of the native calls `step` can make: the name-import status, the
context-initialization status and minor code, the produced output token, and
the context handle value after `gss_init_sec_context` updated it in place. -/
structure StepOutcomes where
  import_name_ret : Nat
  import_minor : Nat
  init_sec_context_ret : Nat
  init_minor : Nat
  output_token : List Nat
  new_gss : Option Nat
  display : GssDisplay

/-- `GSSAPI::step`, lines 502–569 of `lib.rs`: import the target service name
(translated error on failure); call `gss_init_sec_context`, which updates the
session's context handle in place; release the imported name; status 0
(`GSS_S_COMPLETE`) or 1 (`GSS_S_CONTINUE_NEEDED`) yields the output token with
`completed` set exactly when the status is 0, any other status yields the
translated `gss_init_sec_context failed` error. -/
def GSSAPI.step (s : GSSAPIState) (_service : String) (_input : Option (List Nat))
    (o : StepOutcomes) : GSSAPIState × List NativeCall × Except NapiError StepResult :=
  if o.import_name_ret ≠ 0 then
    let f := format_gss_error o.display "gss_import_name failed" o.import_name_ret o.import_minor
    (s, .gss_import_name :: f.1, .error f.2)
  else
    let s1 : GSSAPIState := { s with gss := o.new_gss }
    let t : List NativeCall := [.gss_import_name, .gss_init_sec_context, .gss_release_name]
    if o.init_sec_context_ret ≠ 0 ∧ o.init_sec_context_ret ≠ 1 then
      let f := format_gss_error o.display "gss_init_sec_context failed"
        o.init_sec_context_ret o.init_minor
      (s1, t ++ f.1, .error f.2)
    else
      (s1, t ++ [.gss_release_buffer], .ok ⟨o.output_token, o.init_sec_context_ret == 0⟩)

/-! ## Message protection (`wrap`, `unwrap`)

Both take `&self` and are not bracketed by an environment scope.  The trace
records the context handle each native call receives, and for `gss_wrap` also
the `conf_req_flag` argument; the Rust code passes the literal `0` for it. -/

/-- Outcomes of the native calls `wrap` can make. -/
structure WrapOutcomes where
  wrap_ret : Nat
  wrap_minor : Nat
  output : List Nat
  display : GssDisplay

/-- `GSSAPI::wrap`, lines 572–598 of `lib.rs`: call `gss_wrap` on the current
context handle with `conf_req_flag = 0`, unconditionally; translated error if
the call fails; otherwise copy the output and release the native buffer. -/
def GSSAPI.wrap (s : GSSAPIState) (_data : List Nat) (o : WrapOutcomes) :
    List NativeCall × Except NapiError (List Nat) :=
  if o.wrap_ret ≠ 0 then
    let f := format_gss_error o.display "gss_wrap failed" o.wrap_ret o.wrap_minor
    (.gss_wrap s.gss 0 :: f.1, .error f.2)
  else
    ([.gss_wrap s.gss 0, .gss_release_buffer], .ok o.output)

/-- Outcomes of the native calls `unwrap` can make. -/
structure UnwrapOutcomes where
  unwrap_ret : Nat
  unwrap_minor : Nat
  output : List Nat
  display : GssDisplay

/-- `GSSAPI::unwrap`, lines 601–634 of `lib.rs`: call `gss_unwrap` on the
current context handle, unconditionally; translated error if the call fails;
otherwise copy the output and release the native buffer. -/
def GSSAPI.unwrap (s : GSSAPIState) (_data : List Nat) (o : UnwrapOutcomes) :
    List NativeCall × Except NapiError (List Nat) :=
  if o.unwrap_ret ≠ 0 then
    let f := format_gss_error o.display "gss_unwrap failed" o.unwrap_ret o.unwrap_minor
    (.gss_unwrap s.gss :: f.1, .error f.2)
  else
    ([.gss_unwrap s.gss, .gss_release_buffer], .ok o.output)

/-! ## Session construction (`new`) and the private files -/

/-- The configuration file content produced by the `format!` template at lines
313–325 of `lib.rs`, with `{0} = realm`, `{1} = kdc`, `{2} = cache_path` and
`\x7b\x7b`/`\x7d\x7d` escaping literal braces.  Note the template starts with
a newline. -/
def configFileContent (realm kdc cache_path : String) : String :=
  "\n[libdefaults]\n  default_realm = " ++ (realm ++
    ("\n  default_ccache_name = FILE:" ++ (cache_path ++
      ("\n\n[realms]\n  " ++ (realm ++
        (" = \x7b\n    kdc = " ++ (kdc ++ "\n  \x7d\n")))))))

/-- Modelled from the spec: the configuration-file block displayed in §6 of
the specification ("Generated configuration file format"), which begins
directly with the `[libdefaults]` line. -/
def specConfigContent (realm kdc cache_path : String) : String :=
  "[libdefaults]\n  default_realm = " ++ (realm ++
    ("\n  default_ccache_name = FILE:" ++ (cache_path ++
      ("\n\n[realms]\n  " ++ (realm ++
        (" = \x7b\n    kdc = " ++ (kdc ++ "\n  \x7d\n")))))))

/-- The on-disk state of the two session-private files: the content of the
configuration file when it exists, and whether the cache file exists. -/
structure FS where
  config : Option String
  cache_exists : Bool
deriving DecidableEq, Repr

/-- `let _ = std::fs::remove_file(config_path)`: the removal result is
ignored, so when the removal fails the file persists on disk. -/
def FS.removeConfig (fs : FS) (ok : Bool) : FS :=
  if ok then { fs with config := none } else fs

/-- `let _ = std::fs::remove_file(cache_path)`: the removal result is
ignored, so when the removal fails the file persists on disk. -/
def FS.removeCache (fs : FS) (ok : Bool) : FS :=
  if ok then { fs with cache_exists := false } else fs

/-- Outcomes of the fallible operations in `GSSAPI::new`: whether the config
write succeeds; when it fails, what `std::fs::write` left on disk at the (so
far non-existent) config path — `none` when the create itself failed, `some
partial` when the file was created but the write failed before completing;
the I/O error text; the return codes and produced handles of
`krb5_init_context` and `krb5_cc_default`; and whether each of the two
(result-ignored) cleanup removals succeeds. -/
structure NewOutcomes where
  write_ok : Bool
  write_leftover : Option String
  write_err : String
  init_context_ret : Int
  context_handle : Nat
  cc_default_ret : Int
  cache_handle : Nat
  remove_config_ok : Bool
  remove_cache_ok : Bool

/-- `GSSAPI::new`, lines 295–368 of `lib.rs`: derive the two private paths
from the per-session uuid; write the configuration file — on failure, return
the error with no cleanup, so whatever the failed write left at the config
path (possibly a partial file) stays on disk; create the library context, on
failure attempting to remove both private files (results ignored); open the
default cache, on failure freeing the context and attempting to remove the
configuration file (result ignored); on success return the session state with
a null security-context handle. -/
def GSSAPI.new (kdc realm uuid temp_dir : String) (o : NewOutcomes) (fs : FS) :
    FS × Except NapiError GSSAPIState :=
  let config_path := temp_dir ++ "/plt-kafka-krb5-" ++ uuid ++ ".conf"
  let cache_path := temp_dir ++ "/plt-kafka-krb5-" ++ uuid ++ ".cache"
  if ¬o.write_ok then
    ({ fs with config := o.write_leftover },
     .error ⟨"Failed to write Kerberos config: " ++ o.write_err⟩)
  else
    let fs1 : FS := { fs with config := some (configFileContent realm kdc cache_path) }
    if o.init_context_ret ≠ 0 then
      ((fs1.removeConfig o.remove_config_ok).removeCache o.remove_cache_ok,
       .error ⟨"krb5_init_context failed with error code " ++ toString o.init_context_ret ++ "."⟩)
    else if o.cc_default_ret ≠ 0 then
      (fs1.removeConfig o.remove_config_ok,
       .error ⟨"krb5_cc_default failed with error code " ++ toString o.cc_default_ret ++ "."⟩)
    else
      (fs1, .ok ⟨config_path, cache_path, some o.context_handle, some o.cache_handle, none⟩)

/-! ## The process-wide scope lock (`GSSAPI_LOCK` / `EnvManager::new`)

`EnvManager::new` acquires the single process-wide mutex before touching the
ambient configuration, and the guard is released when the `EnvManager` is
dropped — after its `drop` body has restored the ambient values, since the
struct's own `Drop::drop` runs before its fields (including the `MutexGuard`)
are dropped.  We model two threads each performing one scope bracket as a
transition system: a thread calls `enter`, blocks while the mutex is held,
acquires it when free, and eventually exits (restoring and releasing). -/

/-- Where one thread is in its scope bracket. -/
inductive Phase where
  | outside
  | waiting
  | inScope
  | finished
deriving DecidableEq, Repr

/-- The joint state of two threads and the mutex: `holder = none` means the
mutex is free, `some false` that thread 1 holds it, `some true` thread 2. -/
structure LockSys where
  t1 : Phase
  t2 : Phase
  holder : Option Bool
deriving DecidableEq, Repr

/-- Both threads outside, the mutex free. -/
def lockInit : LockSys := ⟨.outside, .outside, none⟩

/-- One interleaving step: a thread may call `enter` (start waiting on the
mutex), acquire the mutex only when it is free, or exit its scope (restore the
ambient values and release the mutex). -/
inductive LockStep : LockSys → LockSys → Prop where
  | call1 (s : LockSys) : s.t1 = .outside → LockStep s ⟨.waiting, s.t2, s.holder⟩
  | acquire1 (s : LockSys) : s.t1 = .waiting → s.holder = none →
      LockStep s ⟨.inScope, s.t2, some false⟩
  | release1 (s : LockSys) : s.t1 = .inScope → LockStep s ⟨.finished, s.t2, none⟩
  | call2 (s : LockSys) : s.t2 = .outside → LockStep s ⟨s.t1, .waiting, s.holder⟩
  | acquire2 (s : LockSys) : s.t2 = .waiting → s.holder = none →
      LockStep s ⟨s.t1, .inScope, some true⟩
  | release2 (s : LockSys) : s.t2 = .inScope → LockStep s ⟨s.t1, .finished, none⟩

/-- States reachable from `lockInit` by interleaving steps. -/
inductive LockReachable : LockSys → Prop where
  | start : LockReachable lockInit
  | next {s t : LockSys} : LockReachable s → LockStep s t → LockReachable t

/-- A thread is inside its scope exactly when it holds the mutex. -/
def LockInv (s : LockSys) : Prop :=
  (s.t1 = Phase.inScope ↔ s.holder = some false) ∧
  (s.t2 = Phase.inScope ↔ s.holder = some true)

theorem lockInv_init : LockInv lockInit := by
  constructor <;> simp [lockInit]

theorem lockInv_preserved {s t : LockSys} (hinv : LockInv s) (hstep : LockStep s t) :
    LockInv t := by
  obtain ⟨h1, h2⟩ := hinv
  cases hstep with
  | call1 h =>
    refine ⟨iff_of_false (by simp) fun hh => ?_, h2⟩
    have hc := h1.mpr hh
    rw [h] at hc
    cases hc
  | acquire1 h hfree =>
    refine ⟨iff_of_true rfl rfl, iff_of_false (fun hh => ?_) (by simp)⟩
    have hc := h2.mp hh
    rw [hfree] at hc
    cases hc
  | release1 h =>
    refine ⟨iff_of_false (by simp) (by simp), iff_of_false (fun hh => ?_) (by simp)⟩
    have hb := h2.mp hh
    rw [h1.mp h] at hb
    cases hb
  | call2 h =>
    refine ⟨h1, iff_of_false (by simp) fun hh => ?_⟩
    have hc := h2.mpr hh
    rw [h] at hc
    cases hc
  | acquire2 h hfree =>
    refine ⟨iff_of_false (fun hh => ?_) (by simp), iff_of_true rfl rfl⟩
    have hc := h1.mp hh
    rw [hfree] at hc
    cases hc
  | release2 h =>
    refine ⟨iff_of_false (fun hh => ?_) (by simp), iff_of_false (by simp) (by simp)⟩
    have hb := h1.mp hh
    rw [h2.mp h] at hb
    cases hb

/-! ## Claim theorems -/

/-- Claim C5: for every step call in which name import succeeds, the result is
determined by the context-initialization status: status 0 (`Complete`) returns
the output token with the completed flag true, status 1 (`ContinueNeeded`)
returns it with the flag false, any other status returns the translated
`gss_init_sec_context failed` error, and the flag is true only for status 0. -/
theorem step_status_determines_result (s : GSSAPIState) (service : String)
    (input : Option (List Nat)) (o : StepOutcomes) (himp : o.import_name_ret = 0) :
    (o.init_sec_context_ret = 0 →
      (GSSAPI.step s service input o).2.2 = .ok ⟨o.output_token, true⟩) ∧
    (o.init_sec_context_ret = 1 →
      (GSSAPI.step s service input o).2.2 = .ok ⟨o.output_token, false⟩) ∧
    (o.init_sec_context_ret ≠ 0 → o.init_sec_context_ret ≠ 1 →
      (GSSAPI.step s service input o).2.2 =
        .error (format_gss_error o.display "gss_init_sec_context failed"
          o.init_sec_context_ret o.init_minor).2) ∧
    (∀ r, (GSSAPI.step s service input o).2.2 = .ok r →
      (r.completed = true ↔ o.init_sec_context_ret = 0)) := by
  unfold GSSAPI.step
  by_cases h0 : o.init_sec_context_ret = 0
  · simp [himp, h0]
  · by_cases h1 : o.init_sec_context_ret = 1
    · simp [himp, h0, h1]
    · simp [himp, h0, h1]

/-- Witness for C5 at a concrete continue-needed round. -/
theorem step_status_determines_result_witness :
    (GSSAPI.step ⟨"c", "k", some 1, some 2, none⟩ "svc" none
      ⟨0, 0, 1, 0, [7], some 3, ⟨0, "t", 0, "u"⟩⟩).2.2 = .ok ⟨[7], false⟩ :=
  (step_status_determines_result ⟨"c", "k", some 1, some 2, none⟩ "svc" none
    ⟨0, 0, 1, 0, [7], some 3, ⟨0, "t", 0, "u"⟩⟩ rfl).2.1 rfl

/-- Claim C6: for every username and non-existent keytab path,
`authenticate_with_keytab` fails with the keytab-not-found error and makes no
native library call at all. -/
theorem keytab_not_found_no_native_calls (s : GSSAPIState) (username keytab : String)
    (o : KeytabOutcomes) (h : o.keytab_exists = false) :
    (GSSAPI.authenticate_with_keytab s username keytab o).2.1 = [] ∧
    (GSSAPI.authenticate_with_keytab s username keytab o).2.2 =
      .error ⟨"Keytab file not found: " ++ keytab⟩ := by
  unfold GSSAPI.authenticate_with_keytab
  simp [h]

/-- Witness for C6 at a concrete missing path. -/
theorem keytab_not_found_no_native_calls_witness :
    (GSSAPI.authenticate_with_keytab ⟨"c", "k", some 1, some 2, none⟩ "alice"
        "/no/such/file" ⟨false, 0, 0, 0, 0, 0, fun _ => "m"⟩).2.1 = [] ∧
    (GSSAPI.authenticate_with_keytab ⟨"c", "k", some 1, some 2, none⟩ "alice"
        "/no/such/file" ⟨false, 0, 0, 0, 0, 0, fun _ => "m"⟩).2.2 =
      .error ⟨"Keytab file not found: " ++ "/no/such/file"⟩ :=
  keytab_not_found_no_native_calls ⟨"c", "k", some 1, some 2, none⟩ "alice"
    "/no/such/file" ⟨false, 0, 0, 0, 0, 0, fun _ => "m"⟩ rfl

/-- Claim C2 (code bug): when `krb5_parse_name` and
`krb5_get_init_creds_password` succeed but `krb5_cc_initialize` fails, the
function returns the translated error having freed the principal but without
ever calling `krb5_free_cred_contents`: the successfully acquired credential
contents are not released on this path. -/
theorem password_cc_initialize_failure_leaks_cred_contents :
    ((GSSAPI.authenticate_with_password ⟨"c", "k", some 1, some 2, none⟩ "alice" "pw"
        ⟨0, 0, 1, 0, fun _ => "cache failure"⟩).2.1.count
      NativeCall.krb5_get_init_creds_password = 1) ∧
    ((GSSAPI.authenticate_with_password ⟨"c", "k", some 1, some 2, none⟩ "alice" "pw"
        ⟨0, 0, 1, 0, fun _ => "cache failure"⟩).2.1.count
      NativeCall.krb5_free_principal = 1) ∧
    ((GSSAPI.authenticate_with_password ⟨"c", "k", some 1, some 2, none⟩ "alice" "pw"
        ⟨0, 0, 1, 0, fun _ => "cache failure"⟩).2.1.count
      NativeCall.krb5_free_cred_contents = 0) ∧
    ((GSSAPI.authenticate_with_password ⟨"c", "k", some 1, some 2, none⟩ "alice" "pw"
        ⟨0, 0, 1, 0, fun _ => "cache failure"⟩).2.2 =
      .error ⟨"krb5_cc_initialize failed: cache failure. (error code 1)"⟩) :=
  ⟨rfl, rfl, rfl, rfl⟩

/-- Claim C10: `authenticate_with_password` and `authenticate_with_keytab`
leave every field of the session value unchanged, on success and on every
error path. -/
theorem authenticate_preserves_session (s : GSSAPIState) (u p : String)
    (o : PasswordOutcomes) (u2 k : String) (o2 : KeytabOutcomes) :
    (GSSAPI.authenticate_with_password s u p o).1 = s ∧
    (GSSAPI.authenticate_with_keytab s u2 k o2).1 = s := by
  constructor
  · unfold GSSAPI.authenticate_with_password
    split_ifs <;> rfl
  · unfold GSSAPI.authenticate_with_keytab
    split_ifs <;> rfl

/-- Claim C1 counterexample: on a session whose security context is not
established (`gss = none`, as after construction), `wrap` performs the native
`gss_wrap` call on the null handle and returns the translated native error —
not a `ContextNotEstablished` pre-check error, and not without native calls. -/
theorem wrap_before_establishment_counterexample :
    ((⟨"c", "k", some 1, some 2, none⟩ : GSSAPIState).gss = none) ∧
    (GSSAPI.wrap ⟨"c", "k", some 1, some 2, none⟩ [1, 2]
        ⟨5, 0, [], ⟨0, "No context", 0, ""⟩⟩).1 =
      [.gss_wrap none 0, .gss_display_status, .gss_release_buffer] ∧
    (GSSAPI.wrap ⟨"c", "k", some 1, some 2, none⟩ [1, 2]
        ⟨5, 0, [], ⟨0, "No context", 0, ""⟩⟩).2 =
      .error ⟨"gss_wrap failed: No context. (error code 5 - 0)"⟩ :=
  ⟨rfl, rfl, rfl⟩

/-- Claim C1 as amended: `wrap` and `unwrap` perform no establishment check;
even on a session with a null context handle they invoke the native
`gss_wrap`/`gss_unwrap` call (on that null handle) as their first native call,
and a native failure is surfaced as the translated error. -/
theorem wrap_unwrap_no_establishment_check (s : GSSAPIState) (data : List Nat)
    (o : WrapOutcomes) (uo : UnwrapOutcomes) (h : s.gss = none) :
    (GSSAPI.wrap s data o).1.head? = some (.gss_wrap none 0) ∧
    (o.wrap_ret ≠ 0 → (GSSAPI.wrap s data o).2 =
      .error (format_gss_error o.display "gss_wrap failed" o.wrap_ret o.wrap_minor).2) ∧
    (GSSAPI.unwrap s data uo).1.head? = some (.gss_unwrap none) ∧
    (uo.unwrap_ret ≠ 0 → (GSSAPI.unwrap s data uo).2 =
      .error (format_gss_error uo.display "gss_unwrap failed" uo.unwrap_ret uo.unwrap_minor).2) := by
  unfold GSSAPI.wrap GSSAPI.unwrap
  rw [h]
  refine ⟨?_, fun hw => ?_, ?_, fun hu => ?_⟩
  · split_ifs <;> rfl
  · simp [hw]
  · split_ifs <;> rfl
  · simp [hu]

/-- Witness for C1's amended theorem at a concrete unestablished session. -/
theorem wrap_unwrap_no_establishment_check_witness :
    (GSSAPI.wrap ⟨"c", "k", some 1, some 2, none⟩ [3]
        ⟨5, 0, [], ⟨0, "x", 0, "y"⟩⟩).1.head? = some (.gss_wrap none 0) :=
  (wrap_unwrap_no_establishment_check ⟨"c", "k", some 1, some 2, none⟩ [3]
    ⟨5, 0, [], ⟨0, "x", 0, "y"⟩⟩ ⟨6, 0, [], ⟨0, "x", 0, "y"⟩⟩ rfl).1

/-- Claim C7 counterexample: on an established session, the only native wrap
call `wrap` makes carries `conf_req_flag = 0` — confidentiality is not
requested. -/
theorem wrap_conf_flag_zero_counterexample :
    (GSSAPI.wrap ⟨"c", "k", some 1, some 2, some 9⟩ [1]
        ⟨0, 0, [4, 5], ⟨0, "", 0, ""⟩⟩).1 =
      [.gss_wrap (some 9) 0, .gss_release_buffer] ∧
    (GSSAPI.wrap ⟨"c", "k", some 1, some 2, some 9⟩ [1]
        ⟨0, 0, [4, 5], ⟨0, "", 0, ""⟩⟩).2 = .ok [4, 5] :=
  ⟨rfl, rfl⟩

/-- Claim C7 as amended: for every message buffer, `wrap` invokes the native
wrap call with the confidentiality-request flag cleared (`conf_req_flag = 0`,
integrity protection only) and returns the protected buffer on success. -/
theorem wrap_requests_no_confidentiality (s : GSSAPIState) (data : List Nat)
    (o : WrapOutcomes) :
    (GSSAPI.wrap s data o).1.head? = some (.gss_wrap s.gss 0) ∧
    (o.wrap_ret = 0 → (GSSAPI.wrap s data o).2 = .ok o.output) := by
  unfold GSSAPI.wrap
  constructor
  · split_ifs <;> rfl
  · intro h
    simp [h]

/-- Witness for C7's amended theorem at a concrete successful wrap. -/
theorem wrap_requests_no_confidentiality_witness :
    (GSSAPI.wrap ⟨"c", "k", some 1, some 2, some 9⟩ [1]
        ⟨0, 0, [4, 5], ⟨0, "", 0, ""⟩⟩).2 = .ok [4, 5] :=
  (wrap_requests_no_confidentiality ⟨"c", "k", some 1, some 2, some 9⟩ [1]
    ⟨0, 0, [4, 5], ⟨0, "", 0, ""⟩⟩).2 rfl

/-- Claim C3 (code bug): when `std::fs::write` creates the configuration file
but fails before completing — leaving a partial file on disk — construction
returns the write error with no cleanup (lib.rs lines 327–329), and the
private configuration file remains on disk after the error; the claim and the
spec (§4.2 "must clean up any files already written", §8 "no private files
remain") require that no private file remain after a failed construction. -/
theorem new_write_failure_leaves_config_file :
    ((GSSAPI.new "kdc.example.com" "EXAMPLE.COM" "u1" "/tmp"
        ⟨false, some "\n[libdefaults]", "No space left on device (os error 28)",
          0, 0, 0, 0, true, true⟩ ⟨none, false⟩).2 =
      .error ⟨"Failed to write Kerberos config: No space left on device (os error 28)"⟩) ∧
    ((GSSAPI.new "kdc.example.com" "EXAMPLE.COM" "u1" "/tmp"
        ⟨false, some "\n[libdefaults]", "No space left on device (os error 28)",
          0, 0, 0, 0, true, true⟩ ⟨none, false⟩).1.config = some "\n[libdefaults]") :=
  ⟨rfl, rfl⟩

/-- Claim C8 counterexample: at concrete realm, KDC and cache path, the
configuration file content the code writes differs from the block displayed
in the specification (the written file starts with a blank line). -/
theorem config_content_counterexample :
    configFileContent "EXAMPLE.COM" "kdc.example.com" "/tmp/cc" ≠
      specConfigContent "EXAMPLE.COM" "kdc.example.com" "/tmp/cc" := by
  decide

/-- Claim C8 as amended: for every realm, KDC host and cache path, the written
configuration file content is exactly the specified plain-text block preceded
by one newline character, with no other content. -/
theorem config_content_is_spec_block_after_newline (realm kdc cache_path : String) :
    configFileContent realm kdc cache_path =
      "\n" ++ specConfigContent realm kdc cache_path := by
  unfold configFileContent specConfigContent
  conv_rhs => rw [← String.append_assoc]
  congr 1

/-- Every reachable state satisfies the lock-ownership invariant. -/
theorem lockReachable_inv {s : LockSys} (h : LockReachable s) : LockInv s := by
  induction h with
  | start => exact lockInv_init
  | next _ hstep ih => exact lockInv_preserved ih hstep

/-- Claim C9: in every state reachable by two threads interleaving their
scope brackets around the process-wide mutex, at most one thread is inside a
scope: the second `enter` cannot acquire the mutex until the first scope has
exited. -/
theorem scope_mutual_exclusion {s : LockSys} (h : LockReachable s) :
    ¬(s.t1 = Phase.inScope ∧ s.t2 = Phase.inScope) := by
  rintro ⟨ha, hb⟩
  obtain ⟨h1, h2⟩ := lockReachable_inv h
  have hc := h1.mp ha
  rw [h2.mp hb] at hc
  cases hc

/-- Witness for C9 at a concrete reachable state in which thread 1 is inside
its scope while thread 2 is blocked waiting. -/
theorem scope_mutual_exclusion_witness :
    ¬((⟨Phase.inScope, Phase.waiting, some false⟩ : LockSys).t1 = Phase.inScope ∧
      (⟨Phase.inScope, Phase.waiting, some false⟩ : LockSys).t2 = Phase.inScope) :=
  scope_mutual_exclusion
    (LockReachable.next
      (LockReachable.next
        (LockReachable.next LockReachable.start (LockStep.call1 lockInit rfl))
        (LockStep.call2 ⟨Phase.waiting, Phase.outside, none⟩ rfl))
      (LockStep.acquire1 ⟨Phase.waiting, Phase.waiting, none⟩ rfl rfl))

end KafkaGSSAPI
